import Mathlib

/-!
Verification of the lead-scoring and net-salary-estimation backend.
The Python functions of src/main.py are embedded shallowly: machine
floats become exact rationals, Python strings become Lean strings with
the relevant pieces of Python string semantics modelled explicitly,
and the ambient current date of the scoring function becomes an
explicit day-number parameter.
-/

namespace Grenz

/-- Python lower() restricted to the characters occurring in this
domain: ASCII letters plus the German umlauts used in canton names. -/
def pyCharLower (c : Char) : Char :=
  if c = 'Ä' then 'ä'
  else if c = 'Ö' then 'ö'
  else if c = 'Ü' then 'ü'
  else c.toLower

/-- Python str.lower(). -/
def pyLower (s : String) : String :=
  String.mk (s.toList.map pyCharLower)

/-- Python str.strip(): drop leading and trailing whitespace. -/
def pyStrip (s : String) : String :=
  String.mk (((s.toList.dropWhile Char.isWhitespace).reverse.dropWhile
    Char.isWhitespace).reverse)

/-- Whether the first character list occurs contiguously inside the
second. -/
def listInfix (needle : List Char) : List Char → Bool
  | [] => needle.isEmpty
  | c :: t => needle.isPrefixOf (c :: t) || listInfix needle t

/-- Python substring membership: needle in haystack. -/
def containsSub (needle haystack : String) : Bool :=
  listInfix needle.toList haystack.toList

/-- Python falsy-or for an optional string: None and the empty string
fall back to the default. -/
def pyOrStr (o : Option String) (d : String) : String :=
  match o with
  | none => d
  | some s => if s = "" then d else s

/-- Python falsy-or for an optional number: None and zero fall back to
the default. -/
def pyOrRat (o : Option ℚ) (d : ℚ) : ℚ :=
  match o with
  | none => d
  | some x => if x = 0 then d else x

/-- Python falsy-or for an optional count: None falls back to zero. -/
def pyOrNat (o : Option ℕ) : ℕ :=
  match o with
  | none => 0
  | some n => n

/-- Python round() to the nearest integer, ties to even. -/
def roundHalfEven (x : ℚ) : ℤ :=
  let f := ⌊x⌋
  let r := x - (f : ℚ)
  if r < 1/2 then f
  else if 1/2 < r then f + 1
  else if f % 2 = 0 then f else f + 1

/-- Python round(x, 2). -/
def round2 (x : ℚ) : ℚ :=
  ((roundHalfEven (x * 100) : ℤ) : ℚ) / 100

/-- Python round(x, 3). -/
def round3 (x : ℚ) : ℚ :=
  ((roundHalfEven (x * 1000) : ℤ) : ℚ) / 1000

/-- The Lead schema of src/schemas.py. Literal-typed fields are
strings; the birth date is a day number so that the difference
today minus birth_date is the day count of the Python date
subtraction. -/
structure Lead where
  first_name : String
  last_name : String
  email : String
  phone : Option String
  birth_date : Option ℤ
  residence_at : String
  work_ch : String
  consent_email : Bool
  consent_whatsapp : Bool
  status : String
  family : String
  children_count : Option ℕ
  health : String

/-- compute_score_and_recommendation of src/main.py, lines 61 to 99.
The current date is the explicit parameter today (a day number). -/
def compute_score_and_recommendation (lead : Lead) (today : ℤ) :
    ℤ × String × String :=
  let score : ℤ := 50
  let score :=
    match lead.birth_date with
    | none => score
    | some b =>
      let years := Int.fdiv (today - b) 365
      if years < 30 then score + 10
      else if 55 < years then score - 5
      else score
  let score :=
    if lead.status = "Neu-Grenzgänger" then score + 15
    else if lead.status = "Plane Wechsel" then score + 5
    else score
  let score :=
    if lead.family = "Mit Kindern" then score + 10
    else if lead.family = "Mit Partner" then score + 5
    else score
  let score := if lead.consent_email then score + 5 else score
  let score := if lead.consent_whatsapp then score + 10 else score
  let canton := pyLower lead.work_ch
  let recommended_model :=
    if containsSub "liechtenstein" canton || canton = "fl" then "AT"
    else if ["zh", "zürich", "zuerich", "basel", "bs", "ge", "genf"].any
      (fun k => containsSub k canton) then "CH"
    else "Hybrid"
  let category := if 75 ≤ score then "hot" else "warm"
  (max 0 (min 100 score), category, recommended_model)

/-- The additive pre-clamp score sum as the spec describes it: base 50
plus independent age, status, family and consent contributions. -/
def preClampScore (lead : Lead) (today : ℤ) : ℤ :=
  50
  + (match lead.birth_date with
     | none => 0
     | some b =>
       if Int.fdiv (today - b) 365 < 30 then 10
       else if 55 < Int.fdiv (today - b) 365 then -5
       else 0)
  + (if lead.status = "Neu-Grenzgänger" then 15
     else if lead.status = "Plane Wechsel" then 5
     else 0)
  + (if lead.family = "Mit Kindern" then 10
     else if lead.family = "Mit Partner" then 5
     else 0)
  + (if lead.consent_email then 5 else 0)
  + (if lead.consent_whatsapp then 10 else 0)

/-- The recommended-model rule as the spec describes it, on the
lowercased work location. -/
def recommendedModelSpec (canton : String) : String :=
  if containsSub "liechtenstein" canton || canton = "fl" then "AT"
  else if ["zh", "zürich", "zuerich", "basel", "bs", "ge", "genf"].any
    (fun k => containsSub k canton) then "CH"
  else "Hybrid"

/-- The NetCalcRequest schema of src/main.py. Optional fields stay
optional; the schema defaults and range checks live in the validation
layer, outside the pure computation. -/
structure NetCalcRequest where
  gross_chf : ℚ
  work_ch : String
  residence_at : String
  age : Option ℤ
  marital : Option String
  children_count : Option ℕ
  exchange_rate : Option ℚ

/-- The NetCalcResult payload of src/main.py: the three totals, the
six named breakdown lines and the assumptions record. -/
structure NetCalcResult where
  net_chf : ℚ
  net_eur : ℚ
  total_deductions : ℚ
  bd_ahv_iv_eo : ℚ
  bd_alv : ℚ
  bd_nbu : ℚ
  bd_bvg : ℚ
  bd_quellensteuer : ℚ
  bd_krankenkasse : ℚ
  as_exchange_rate : Option ℚ
  as_bvg_rate : ℚ
  as_qs_rate : ℚ
  as_disclaimer : String

/-- estimate_bvg_rate of src/main.py, lines 160 to 172. -/
def estimate_bvg_rate (age : Option ℤ) : ℚ :=
  match age with
  | none => 0.07
  | some a =>
    if a < 25 then 0.05
    else if a < 35 then 0.07
    else if a < 45 then 0.09
    else if a < 55 then 0.11
    else 0.12

/-- estimate_quellensteuer_rate of src/main.py, lines 175 to 189. -/
def estimate_quellensteuer_rate (work_ch_lower : String)
    (marital : String) (children_count : ℕ) : ℚ :=
  let base : ℚ :=
    if ["zh", "zürich", "zuerich"].any
      (fun k => containsSub k work_ch_lower) then 0.045
    else if ["bs", "basel"].any
      (fun k => containsSub k work_ch_lower) then 0.043
    else if ["ge", "genf"].any
      (fun k => containsSub k work_ch_lower) then 0.05
    else if containsSub "liechtenstein" work_ch_lower
      || (pyStrip work_ch_lower = "fl" || pyStrip work_ch_lower = "li")
      then 0.012
    else 0.02
  let relief : ℚ :=
    (if marital = "married" then 0.004 else 0)
    + 0.002 * ((min 3 children_count : ℕ) : ℚ)
  max 0 (base - relief)

/-- Python float() applied to a value that is already a number: the
conversion always succeeds. The try/except of calc_net guards exactly
this conversion. -/
def pyFloat (x : ℚ) : Option ℚ := some x

/-- calc_net of src/main.py, lines 192 to 240. The HTTPException 400
branch is the error case of the Except result. -/
def calc_net (req : NetCalcRequest) : Except String NetCalcResult :=
  match pyFloat req.gross_chf with
  | none => Except.error "Invalid gross_chf"
  | some gross =>
    let work := pyStrip (pyLower req.work_ch)
    let ahv_iv_eo := gross * 0.053
    let alv := min gross (148200/12) * 0.011
    let nbu := gross * 0.011
    let bvg := gross * estimate_bvg_rate req.age
    let health_hint : ℚ := 0.0
    let qs_rate := estimate_quellensteuer_rate work
      (pyOrStr req.marital "single") (pyOrNat req.children_count)
    let quellensteuer := gross * qs_rate
    let total_deductions := ahv_iv_eo + alv + nbu + bvg + quellensteuer
    let net_chf := max 0.0 (gross - total_deductions)
    let net_eur := net_chf * pyOrRat req.exchange_rate 0.95
    Except.ok
      { net_chf := round2 net_chf
        net_eur := round2 net_eur
        total_deductions := round2 total_deductions
        bd_ahv_iv_eo := round2 ahv_iv_eo
        bd_alv := round2 alv
        bd_nbu := round2 nbu
        bd_bvg := round2 bvg
        bd_quellensteuer := round2 quellensteuer
        bd_krankenkasse := round2 health_hint
        as_exchange_rate := req.exchange_rate
        as_bvg_rate := round3 (estimate_bvg_rate req.age)
        as_qs_rate := round3 qs_rate
        as_disclaimer := "Unverbindliche Richtwerte. Individuelle Situation (Kasse, Alter, BVG-Plan, Steuerstatus) kann stark abweichen." }

/-- The exact deduction total of calc_net before rounding: the sum of
AHV/IV/EO, ALV, NBU, BVG and Quellensteuer. -/
def totalDeductionsOf (req : NetCalcRequest) : ℚ :=
  req.gross_chf * 0.053
  + min req.gross_chf (148200/12) * 0.011
  + req.gross_chf * 0.011
  + req.gross_chf * estimate_bvg_rate req.age
  + req.gross_chf * estimate_quellensteuer_rate
      (pyStrip (pyLower req.work_ch))
      (pyOrStr req.marital "single") (pyOrNat req.children_count)

/-- The withholding base rate as the spec describes it, on the
lowercased work location, first match winning. -/
def qsBaseSpec (w : String) : ℚ :=
  if ["zh", "zürich", "zuerich"].any (fun k => containsSub k w)
    then 0.045
  else if ["bs", "basel"].any (fun k => containsSub k w) then 0.043
  else if ["ge", "genf"].any (fun k => containsSub k w) then 0.05
  else if containsSub "liechtenstein" w
    || (pyStrip w = "fl" || pyStrip w = "li") then 0.012
  else 0.02

/-- The withholding relief as the spec describes it. -/
def qsReliefSpec (marital : String) (children_count : ℕ) : ℚ :=
  (if marital = "married" then 0.004 else 0)
  + 0.002 * ((min 3 children_count : ℕ) : ℚ)

/-- A baseline lead taking no scoring bonus: no birth date, existing
commuter, single, no consents, work location matching no keyword. -/
def lead0 : Lead :=
  { first_name := "Anna"
    last_name := "Muster"
    email := "anna@example.com"
    phone := none
    birth_date := none
    residence_at := "Vorarlberg"
    work_ch := "St. Gallen"
    consent_email := false
    consent_whatsapp := false
    status := "Bereits Grenzgänger"
    family := "Allein"
    children_count := some 0
    health := "Keine Vorerkrankungen" }

/-- A lead whose work location carries a trailing blank, so that its
lowercased form differs from its lowercased-and-trimmed form. -/
def leadFL : Lead :=
  { lead0 with work_ch := "FL " }

/-- The worked calc_net example of the spec: 6000 CHF gross in
Zürich, age 30, single, no children, exchange rate 0.95. -/
def req4 : NetCalcRequest :=
  { gross_chf := 6000
    work_ch := "Zürich"
    residence_at := "Vorarlberg"
    age := some 30
    marital := some "single"
    children_count := some 0
    exchange_rate := some 0.95 }

/-- A request whose gross salary lies far above the ALV cap. -/
def req20k : NetCalcRequest :=
  { req4 with gross_chf := 20000 }

/-- A request whose gross salary is negative, as it could only arrive
if the schema validation were bypassed. -/
def reqNeg : NetCalcRequest :=
  { req4 with gross_chf := -5 }

theorem addShift1 (c : Prop) [Decidable c] (s k : ℤ) :
    (if c then s + k else s) = s + (if c then k else 0) := by
  split_ifs <;> omega

theorem addShift2 (c d : Prop) [Decidable c] [Decidable d] (s k j : ℤ) :
    (if c then s + k else s + (if d then j else 0))
      = s + (if c then k else if d then j else 0) := by
  split_ifs <;> omega

theorem addShiftAge (c d : Prop) [Decidable c] [Decidable d] (s : ℤ) :
    (if c then s + 10 else if d then s - 5 else s)
      = s + (if c then 10 else if d then -5 else 0) := by
  split_ifs <;> omega

/-- Full characterisation of the scoring function: the returned score
is the clamp of the additive sum, the category is the threshold test
on the accumulated sum, and the recommendation is the keyword rule on
the lowercased work location. -/
theorem compute_eq (lead : Lead) (today : ℤ) :
    compute_score_and_recommendation lead today =
      (max 0 (min 100 (preClampScore lead today)),
       (if 75 ≤ preClampScore lead today then "hot" else "warm"),
       recommendedModelSpec (pyLower lead.work_ch)) := by
  obtain ⟨f, l, e, p, bd, ra, w, ce, cw, st, fa, cc, he⟩ := lead
  cases bd <;>
    simp only [compute_score_and_recommendation, preClampScore,
      recommendedModelSpec, addShiftAge, addShift1, addShift2, add_zero]

theorem preClamp_bounds (lead : Lead) (today : ℤ) :
    45 ≤ preClampScore lead today ∧ preClampScore lead today ≤ 100 := by
  obtain ⟨f, l, e, p, bd, ra, w, ce, cw, st, fa, cc, he⟩ := lead
  cases bd <;> dsimp only [preClampScore] <;> split_ifs <;> omega

theorem clamp_mono {x y : ℤ} (h : x ≤ y) :
    max 0 (min 100 x) ≤ max 0 (min 100 y) := by
  omega

theorem qs_eq (w m : String) (c : ℕ) :
    estimate_quellensteuer_rate w m c
      = max 0 (qsBaseSpec w - qsReliefSpec m c) := rfl

theorem qs_relief_nonneg (m : String) (c : ℕ) : 0 ≤ qsReliefSpec m c := by
  unfold qsReliefSpec
  have hc : (0 : ℚ) ≤ ((min 3 c : ℕ) : ℚ) := Nat.cast_nonneg _
  split_ifs <;> linarith

theorem qs_base_le (w : String) : qsBaseSpec w ≤ 0.05 := by
  unfold qsBaseSpec
  split_ifs <;> norm_num

theorem qs_rate_nonneg (w m : String) (c : ℕ) :
    0 ≤ estimate_quellensteuer_rate w m c := by
  rw [qs_eq]
  exact le_max_left _ _

theorem qs_rate_le (w m : String) (c : ℕ) :
    estimate_quellensteuer_rate w m c ≤ 0.05 := by
  rw [qs_eq]
  have h1 := qs_relief_nonneg m c
  have h2 := qs_base_le w
  apply max_le (by norm_num)
  linarith

theorem bvg_rate_le (a : Option ℤ) : estimate_bvg_rate a ≤ 0.12 := by
  cases a with
  | none => norm_num [estimate_bvg_rate]
  | some v =>
    simp only [estimate_bvg_rate]
    split_ifs <;> norm_num

/-- C1: for every lead and every date, the returned lead score is a
single final clamp to [0, 100] of the full additive sum: base 50 plus
the age, status, family and consent contributions, each with its
default of zero. -/
theorem lead_score_single_final_clamp (lead : Lead) (today : ℤ) :
    (compute_score_and_recommendation lead today).1 =
      max 0 (min 100 (preClampScore lead today)) := by
  rw [compute_eq]

/-- C2: for every lead and every date, the category is hot exactly
when the returned clamped score is at least 75 and warm exactly when
it is below 75. -/
theorem category_hot_iff_clamped_score_ge_75 (lead : Lead) (today : ℤ) :
    ((compute_score_and_recommendation lead today).2.1 = "hot"
      ↔ 75 ≤ (compute_score_and_recommendation lead today).1)
    ∧ ((compute_score_and_recommendation lead today).2.1 = "warm"
      ↔ (compute_score_and_recommendation lead today).1 < 75) := by
  have hb := preClamp_bounds lead today
  rw [compute_eq]
  dsimp only
  have hid : max 0 (min 100 (preClampScore lead today))
      = preClampScore lead today := by omega
  rw [hid]
  split_ifs with h
  · exact ⟨⟨fun _ => h, fun _ => rfl⟩,
      ⟨fun hw => absurd hw (by decide), fun hl => absurd h (by omega)⟩⟩
  · exact ⟨⟨fun hw => absurd hw (by decide), fun hg => absurd hg h⟩,
      ⟨fun _ => by omega, fun _ => rfl⟩⟩

/-- C3 counterexample: the lead whose work location is FL with a
trailing blank has a lowercased-and-trimmed work location equal to
fl, yet the code recommends Hybrid, not AT, because the code never
trims before matching. -/
theorem rec_model_trimmed_fl_counterexample :
    pyStrip (pyLower leadFL.work_ch) = "fl"
    ∧ (compute_score_and_recommendation leadFL 0).2.2 = "Hybrid"
    ∧ (compute_score_and_recommendation leadFL 0).2.2 ≠ "AT" := by
  exact ⟨by decide, by decide, by decide⟩

/-- C3 amended: the recommended model follows the keyword precedence
on the lowercased but untrimmed work location, with the exact
comparison against fl made on the untrimmed string; in particular the
work location Liechtenstein yields AT. -/
theorem rec_model_precedence_untrimmed (lead : Lead) (today : ℤ) :
    (compute_score_and_recommendation lead today).2.2 =
      recommendedModelSpec (pyLower lead.work_ch)
    ∧ (compute_score_and_recommendation
        { lead with work_ch := "Liechtenstein" } today).2.2 = "AT" := by
  constructor
  · rw [compute_eq]
  · rw [compute_eq]
    dsimp only
    decide

/-- C4: the worked example: 6000 CHF gross in Zürich at age 30,
single, no children, rate 0.95, gives the stated breakdown, totals
and assumption rates. -/
theorem calc_net_zurich_example :
    ∃ r : NetCalcResult, calc_net req4 = Except.ok r
    ∧ r.bd_ahv_iv_eo = 318
    ∧ r.bd_alv = 66
    ∧ r.bd_nbu = 66
    ∧ r.bd_bvg = 420
    ∧ r.bd_quellensteuer = 270
    ∧ r.total_deductions = 1140
    ∧ r.net_chf = 4860
    ∧ r.net_eur = 4617
    ∧ r.as_bvg_rate = 0.07
    ∧ r.as_qs_rate = 0.045
    ∧ estimate_bvg_rate (some 30) = 0.07
    ∧ qsReliefSpec "single" 0 = 0 := by
  refine ⟨_, rfl, ?_, ?_, ?_, ?_, ?_, ?_, ?_, ?_, ?_, ?_, ?_, ?_⟩ <;>
    norm_num +decide [req4, round2, round3, roundHalfEven,
      estimate_bvg_rate, estimate_quellensteuer_rate, pyOrStr, pyOrNat,
      pyOrRat, qsReliefSpec, max_def, min_def]

/-- C5: the effective withholding rate on a lowercased work location
is the base rate of the keyword precedence minus the family relief,
floored at zero; married with ten children gives relief 0.01, and the
rate is never negative. -/
theorem quellensteuer_rate_formula (w m : String) (c : ℕ) (h : c ≤ 10) :
    estimate_quellensteuer_rate (pyLower w) m c
      = max 0 (qsBaseSpec (pyLower w) - qsReliefSpec m c)
    ∧ qsReliefSpec "married" 10 = 0.01
    ∧ 0 ≤ estimate_quellensteuer_rate (pyLower w) m c := by
  exact ⟨qs_eq (pyLower w) m c, by norm_num [qsReliefSpec, min_def],
    qs_rate_nonneg (pyLower w) m c⟩

/-- C5 witness at the Zürich abbreviation, married, ten children. -/
theorem quellensteuer_rate_formula_witness :
    (10 : ℕ) ≤ 10
    ∧ (estimate_quellensteuer_rate (pyLower "ZH") "married" 10
        = max 0 (qsBaseSpec (pyLower "ZH") - qsReliefSpec "married" 10)
      ∧ qsReliefSpec "married" 10 = 0.01
      ∧ 0 ≤ estimate_quellensteuer_rate (pyLower "ZH") "married" 10) :=
  ⟨by decide, quellensteuer_rate_formula "ZH" "married" 10 (by decide)⟩

/-- C6 counterexample: a negative gross salary that bypasses the
schema validation does not make calc_net fail: the computation
succeeds, although the claim demands the InvalidInput failure exactly
when the gross salary is not a positive number. -/
theorem calc_net_nonpositive_no_error_counterexample :
    (calc_net reqNeg).isOk = true ∧ reqNeg.gross_chf < 0 :=
  ⟨rfl, by norm_num [reqNeg, req4]⟩

/-- C6 amended: calc_net never fails on any request whose gross
salary is a number: the guarded float conversion cannot fail there
and no positivity re-check exists, so every request, including one
with a non-positive gross salary, produces a complete result. -/
theorem calc_net_never_fails (req : NetCalcRequest) :
    ∃ r : NetCalcResult, calc_net req = Except.ok r :=
  ⟨_, rfl⟩

/-- C7: the ALV line is always computed on the contribution base
capped at 148200/12; at 20000 CHF gross the cap binds and the line is
135.85, computed on 12350 rather than the full gross. -/
theorem alv_capped_base :
    (∀ req : NetCalcRequest, ∃ r : NetCalcResult,
      calc_net req = Except.ok r
      ∧ r.bd_alv = round2 (min req.gross_chf (148200/12) * 0.011))
    ∧ (∃ r : NetCalcResult, calc_net req20k = Except.ok r
        ∧ r.bd_alv = round2 ((148200/12) * 0.011)
        ∧ r.bd_alv = 135.85)
    ∧ min (20000 : ℚ) (148200/12) = 12350 := by
  refine ⟨fun req => ⟨_, rfl, rfl⟩, ⟨_, rfl, ?_, ?_⟩, ?_⟩ <;>
    norm_num [req20k, req4, round2, roundHalfEven, min_def]

/-- C8: holding the other fields fixed, the score never decreases
when the birth date makes the age fall below 30, when the status
becomes Neu-Grenzgänger, when the family becomes Mit Kindern, or when
both consents become true. -/
theorem score_monotone_factors (lead : Lead) (today b : ℤ)
    (h : Int.fdiv (today - b) 365 < 30) :
    (compute_score_and_recommendation lead today).1
      ≤ (compute_score_and_recommendation
          { lead with birth_date := some b } today).1
    ∧ (compute_score_and_recommendation lead today).1
      ≤ (compute_score_and_recommendation
          { lead with status := "Neu-Grenzgänger" } today).1
    ∧ (compute_score_and_recommendation lead today).1
      ≤ (compute_score_and_recommendation
          { lead with family := "Mit Kindern" } today).1
    ∧ (compute_score_and_recommendation lead today).1
      ≤ (compute_score_and_recommendation
          { lead with consent_email := true, consent_whatsapp := true }
          today).1 := by
  obtain ⟨f, l, e, p, bd, ra, w, ce, cw, st, fa, cc, he⟩ := lead
  refine ⟨?_, ?_, ?_, ?_⟩ <;>
    (simp only [compute_eq]; apply clamp_mono) <;>
    cases bd <;>
    simp only [preClampScore, String.reduceEq, reduceIte] <;>
    split_ifs <;> omega

/-- C8 witness: the baseline lead at day zero with a birth day one
thousand days earlier. -/
theorem score_monotone_factors_witness :
    Int.fdiv (0 - (-1000)) 365 < 30
    ∧ ((compute_score_and_recommendation lead0 0).1
        ≤ (compute_score_and_recommendation
            { lead0 with birth_date := some (-1000) } 0).1
      ∧ (compute_score_and_recommendation lead0 0).1
        ≤ (compute_score_and_recommendation
            { lead0 with status := "Neu-Grenzgänger" } 0).1
      ∧ (compute_score_and_recommendation lead0 0).1
        ≤ (compute_score_and_recommendation
            { lead0 with family := "Mit Kindern" } 0).1
      ∧ (compute_score_and_recommendation lead0 0).1
        ≤ (compute_score_and_recommendation
            { lead0 with consent_email := true, consent_whatsapp := true }
            0).1) :=
  ⟨by decide, score_monotone_factors lead0 0 (-1000) (by decide)⟩

/-- C9: for every lead and every date, the pre-clamp additive sum
already lies between 45 and 100, the final clamp is the identity, and
the returned score lies between 45 and 100. -/
theorem preclamp_score_in_range_clamp_identity (lead : Lead) (today : ℤ) :
    45 ≤ preClampScore lead today
    ∧ preClampScore lead today ≤ 100
    ∧ (compute_score_and_recommendation lead today).1
        = preClampScore lead today
    ∧ 45 ≤ (compute_score_and_recommendation lead today).1
    ∧ (compute_score_and_recommendation lead today).1 ≤ 100 := by
  have hb := preClamp_bounds lead today
  rw [compute_eq]
  dsimp only
  omega

/-- C10: with a positive gross salary the exact deduction total is
strictly below the gross, the net is strictly positive, the floor at
zero on the net is the identity, and the returned net is the rounding
of gross minus deductions. -/
theorem total_deductions_lt_gross (req : NetCalcRequest)
    (h : 0 < req.gross_chf) :
    totalDeductionsOf req < req.gross_chf
    ∧ 0 < req.gross_chf - totalDeductionsOf req
    ∧ max 0 (req.gross_chf - totalDeductionsOf req)
        = req.gross_chf - totalDeductionsOf req
    ∧ ∃ r : NetCalcResult, calc_net req = Except.ok r
        ∧ r.net_chf = round2 (req.gross_chf - totalDeductionsOf req) := by
  have hbvg := bvg_rate_le req.age
  have hqs0 := qs_rate_nonneg (pyStrip (pyLower req.work_ch))
    (pyOrStr req.marital "single") (pyOrNat req.children_count)
  have hqs5 := qs_rate_le (pyStrip (pyLower req.work_ch))
    (pyOrStr req.marital "single") (pyOrNat req.children_count)
  have halv : min req.gross_chf (148200/12) * 0.011
      ≤ req.gross_chf * 0.011 :=
    mul_le_mul_of_nonneg_right
      (min_le_left req.gross_chf (148200/12)) (by norm_num)
  have hb : req.gross_chf * estimate_bvg_rate req.age
      ≤ req.gross_chf * 0.12 :=
    mul_le_mul_of_nonneg_left hbvg h.le
  have hq : req.gross_chf * estimate_quellensteuer_rate
        (pyStrip (pyLower req.work_ch)) (pyOrStr req.marital "single")
        (pyOrNat req.children_count)
      ≤ req.gross_chf * 0.05 :=
    mul_le_mul_of_nonneg_left hqs5 h.le
  have hlt : totalDeductionsOf req < req.gross_chf := by
    unfold totalDeductionsOf
    nlinarith [h, halv, hb, hq]
  have hmax : max 0 (req.gross_chf - totalDeductionsOf req)
      = req.gross_chf - totalDeductionsOf req :=
    max_eq_right (by linarith)
  refine ⟨hlt, by linarith, hmax, ⟨_, rfl, ?_⟩⟩
  show round2 (max 0.0 (req.gross_chf - totalDeductionsOf req))
    = round2 (req.gross_chf - totalDeductionsOf req)
  have h00 : (0.0 : ℚ) = 0 := by norm_num
  rw [h00, hmax]

/-- C10 witness at the worked Zürich example request. -/
theorem total_deductions_lt_gross_witness :
    0 < req4.gross_chf
    ∧ (totalDeductionsOf req4 < req4.gross_chf
      ∧ 0 < req4.gross_chf - totalDeductionsOf req4
      ∧ max 0 (req4.gross_chf - totalDeductionsOf req4)
          = req4.gross_chf - totalDeductionsOf req4
      ∧ ∃ r : NetCalcResult, calc_net req4 = Except.ok r
          ∧ r.net_chf = round2 (req4.gross_chf - totalDeductionsOf req4)) :=
  ⟨by norm_num [req4], total_deductions_lt_gross req4 (by norm_num [req4])⟩

end Grenz
